import Mathlib

/-!
Shallow embedding of the HTLC atomic-swap core of this repository:
the UTXO-chain HTLC builder (src/btc/htlc.ts), the account-chain escrow
contract (EthEscrow.sol, embedded alongside src/btc/htlc.ts), the escrow
manager (src/eth/escrow.ts) and the coordinator routes (src/api/server.ts).
Bytes are modelled as natural numbers below 256, byte strings as lists of
naturals.  The two hash primitives the source calls through its libraries
(Node crypto / the EVM sha256 precompile / OP_SHA256 on one side,
ethers.keccak256 on the other) are implemented in full below so that the
hashlock wiring across components can be compared on concrete inputs.
-/

/-! ## SHA-256 (FIPS 180-4), over byte lists -/

/-- The 64 SHA-256 round constants. -/
def sha256K : List Nat :=
  [1116352408, 1899447441, 3049323471, 3921009573, 961987163, 1508970993,
   2453635748, 2870763221, 3624381080, 310598401, 607225278, 1426881987,
   1925078388, 2162078206, 2614888103, 3248222580, 3835390401, 4022224774,
   264347078, 604807628, 770255983, 1249150122, 1555081692, 1996064986,
   2554220882, 2821834349, 2952996808, 3210313671, 3336571891, 3584528711,
   113926993, 338241895, 666307205, 773529912, 1294757372, 1396182291,
   1695183700, 1986661051, 2177026350, 2456956037, 2730485921, 2820302411,
   3259730800, 3345764771, 3516065817, 3600352804, 4094571909, 275423344,
   430227734, 506948616, 659060556, 883997877, 958139571, 1322822218,
   1537002063, 1747873779, 1955562222, 2024104815, 2227730452, 2361852424,
   2428436474, 2756734187, 3204031479, 3329325298]

/-- The SHA-256 initial hash value. -/
def sha256H0 : List Nat :=
  [1779033703, 3144134277, 1013904242, 2773480762,
   1359893119, 2600822924, 528734635, 1541459225]

/-- Right rotation of a 32-bit word. -/
def rotr32 (n x : Nat) : Nat := ((x >>> n) ||| (x <<< (32 - n))) % 4294967296

/-- Addition modulo 2^32. -/
def add32 (a b : Nat) : Nat := (a + b) % 4294967296

/-- Bitwise complement of a 32-bit word. -/
def not32 (x : Nat) : Nat := x ^^^ 4294967295

/-- SHA-256 Ch function. -/
def shaCh (x y z : Nat) : Nat := (x &&& y) ^^^ (not32 x &&& z)

/-- SHA-256 Maj function. -/
def shaMaj (x y z : Nat) : Nat := (x &&& y) ^^^ (x &&& z) ^^^ (y &&& z)

/-- SHA-256 big Sigma-0. -/
def bigSigma0 (x : Nat) : Nat := rotr32 2 x ^^^ rotr32 13 x ^^^ rotr32 22 x

/-- SHA-256 big Sigma-1. -/
def bigSigma1 (x : Nat) : Nat := rotr32 6 x ^^^ rotr32 11 x ^^^ rotr32 25 x

/-- SHA-256 small sigma-0. -/
def smallSigma0 (x : Nat) : Nat := rotr32 7 x ^^^ rotr32 18 x ^^^ (x >>> 3)

/-- SHA-256 small sigma-1. -/
def smallSigma1 (x : Nat) : Nat := rotr32 17 x ^^^ rotr32 19 x ^^^ (x >>> 10)

/-- Split a list into consecutive chunks of size k (k > 0 on all uses). -/
def chunksOf (k : Nat) (l : List Nat) : List (List Nat) :=
  (List.range ((l.length + k - 1) / k)).map fun i => (l.drop (i * k)).take k

/-- Merkle–Damgård padding: append 0x80, zeros, and the 64-bit big-endian bit length. -/
def sha256Pad (msg : List Nat) : List Nat :=
  let z := (119 - msg.length % 64) % 64
  let bitLen := 8 * msg.length
  msg ++ [0x80] ++ List.replicate z 0 ++
    (List.range 8).map fun i => (bitLen >>> (8 * (7 - i))) % 256

/-- Big-endian 32-bit words from a byte list. -/
def toWords32 : List Nat → List Nat
  | a :: b :: c :: d :: rest => (((a * 256 + b) * 256 + c) * 256 + d) :: toWords32 rest
  | _ => []

/-- Expand the 16 block words into the 64-entry message schedule. -/
def sha256Schedule (ws : List Nat) : List Nat :=
  (List.range 48).foldl (fun acc _ =>
    let n := acc.length
    acc ++ [add32 (add32 (smallSigma1 (acc.getD (n - 2) 0)) (acc.getD (n - 7) 0))
              (add32 (smallSigma0 (acc.getD (n - 15) 0)) (acc.getD (n - 16) 0))]) ws

/-- One SHA-256 compression of a 64-byte block into the running state. -/
def sha256Compress (h : List Nat) (block : List Nat) : List Nat :=
  let w := sha256Schedule (toWords32 block)
  let final := (List.range 64).foldl (fun st t =>
    let a := st.getD 0 0
    let b := st.getD 1 0
    let c := st.getD 2 0
    let d := st.getD 3 0
    let e := st.getD 4 0
    let f := st.getD 5 0
    let g := st.getD 6 0
    let hh := st.getD 7 0
    let t1 := add32 hh (add32 (bigSigma1 e) (add32 (shaCh e f g) (add32 (sha256K.getD t 0) (w.getD t 0))))
    let t2 := add32 (bigSigma0 a) (shaMaj a b c)
    [add32 t1 t2, a, b, c, add32 d t1, e, f, g]) h
  List.zipWith add32 h final

/-- Big-endian bytes of a 32-bit word. -/
def word32ToBytes (x : Nat) : List Nat :=
  [(x >>> 24) % 256, (x >>> 16) % 256, (x >>> 8) % 256, x % 256]

/-- SHA-256 digest (32 bytes) of a byte list. -/
def sha256 (msg : List Nat) : List Nat :=
  (((chunksOf 64 (sha256Pad msg)).foldl sha256Compress sha256H0).map word32ToBytes).flatten

/-! ## Keccak-256 (the pre-SHA3 padding used by Ethereum), over byte lists -/

/-- The 24 Keccak round constants. -/
def keccakRC : List Nat :=
  [1, 32898, 9223372036854808714, 9223372039002292224,
   32907, 2147483649, 9223372039002292353, 9223372036854808585,
   138, 136, 2147516425, 2147483658,
   2147516555, 9223372036854775947, 9223372036854808713, 9223372036854808579,
   9223372036854808578, 9223372036854775936, 32778, 9223372039002259466,
   9223372039002292353, 9223372036854808704, 2147483649, 9223372039002292232]

/-- Keccak rotation offsets, indexed by lane index x + 5*y. -/
def keccakRho : List Nat :=
  List.flatten
    [[0, 1, 62, 28, 27],
     [36, 44, 6, 55, 20],
     [3, 10, 43, 25, 39],
     [41, 45, 15, 21, 8],
     [18, 2, 61, 56, 14]]

/-- Left rotation of a 64-bit lane. -/
def rotl64 (n x : Nat) : Nat := ((x <<< n) ||| (x >>> (64 - n))) % 18446744073709551616

/-- Keccak theta step. -/
def keccakTheta (s : List Nat) : List Nat :=
  let c := (List.range 5).map fun x =>
    s.getD x 0 ^^^ s.getD (x + 5) 0 ^^^ s.getD (x + 10) 0 ^^^ s.getD (x + 15) 0 ^^^ s.getD (x + 20) 0
  let d := (List.range 5).map fun x =>
    c.getD ((x + 4) % 5) 0 ^^^ rotl64 1 (c.getD ((x + 1) % 5) 0)
  (List.range 25).map fun i => s.getD i 0 ^^^ d.getD (i % 5) 0

/-- Keccak rho and pi steps combined. -/
def keccakRhoPi (s : List Nat) : List Nat :=
  (List.range 25).foldl (fun b i =>
    let x := i % 5
    let y := i / 5
    b.set (y + 5 * ((2 * x + 3 * y) % 5)) (rotl64 (keccakRho.getD i 0) (s.getD i 0)))
    (List.replicate 25 0)

/-- Keccak chi step. -/
def keccakChi (b : List Nat) : List Nat :=
  (List.range 25).map fun i =>
    let x := i % 5
    let y := i / 5
    b.getD i 0 ^^^ ((b.getD ((x + 1) % 5 + 5 * y) 0 ^^^ 18446744073709551615) &&& b.getD ((x + 2) % 5 + 5 * y) 0)

/-- Keccak iota step. -/
def keccakIota (rc : Nat) (s : List Nat) : List Nat := s.set 0 (s.getD 0 0 ^^^ rc)

/-- The Keccak-f[1600] permutation. -/
def keccakF (s : List Nat) : List Nat :=
  keccakRC.foldl (fun st rc => keccakIota rc (keccakChi (keccakRhoPi (keccakTheta st)))) s

/-- Little-endian 64-bit lane from up to 8 bytes. -/
def bytesToLane (bs : List Nat) : Nat := bs.foldr (fun b acc => acc * 256 + b) 0

/-- Little-endian bytes of a 64-bit lane. -/
def laneToBytes (x : Nat) : List Nat := (List.range 8).map fun j => (x >>> (8 * j)) % 256

/-- Keccak multi-rate padding with domain byte 0x01 (the pre-standard variant Ethereum uses). -/
def keccakPad (rate : Nat) (msg : List Nat) : List Nat :=
  let q := rate - msg.length % rate
  if q = 1 then msg ++ [0x81]
  else msg ++ [0x01] ++ List.replicate (q - 2) 0 ++ [0x80]

/-- Absorb one 136-byte block into the state and permute. -/
def keccakAbsorb (s : List Nat) (block : List Nat) : List Nat :=
  keccakF ((List.range 25).map fun i =>
    s.getD i 0 ^^^ (if i < 17 then bytesToLane ((block.drop (8 * i)).take 8) else 0))

/-- Keccak-256 digest (32 bytes) of a byte list. -/
def keccak256 (msg : List Nat) : List Nat :=
  let s := (chunksOf 136 (keccakPad 136 msg)).foldl keccakAbsorb (List.replicate 25 0)
  ((List.range 4).map fun i => laneToBytes (s.getD i 0)).flatten

/-! ## Account-chain escrow: the EthEscrow contract

Embedding of EthEscrow.sol (kept next to src/btc/htlc.ts).  Addresses are
naturals (0 is the zero address), ETH values and timestamps are naturals.
A reverted call is an `Except.error`; on the chain a revert rolls every
write back, so an error result means the escrow state is unchanged.  The
modifiers are checked in their source order (modifier list left to right,
then the body's `require`).  A successful call returns the new state, the
emitted events in order, and the (payee, value) of the `transfer`. -/

/-- Escrow revert reasons, one per `require` string in EthEscrow.sol. -/
inductive EscrowErr
  | onlyRecipient
  | onlyDeployer
  | alreadyClaimed
  | alreadyRefunded
  | timeoutNotReached
  | invalidSecret
  | mustSendEth
  | invalidRecipient
  | timeoutNotInFuture
deriving DecidableEq, Repr

/-- Events declared by EthEscrow.sol. -/
inductive EscrowEvent
  | secretRevealed (secret : List Nat)
  | claimedEvent (recipient amount : Nat)
  | refundedEvent (deployer amount : Nat)
deriving DecidableEq, Repr

/-- The contract's storage: EthEscrow.sol state variables. -/
structure EthEscrowState where
  deployer : Nat
  recipient : Nat
  hashlock : List Nat
  timeout : Nat
  amount : Nat
  claimed : Bool
  refunded : Bool
deriving DecidableEq, Repr

/-- The EVM call context an external call sees: msg.sender and block.timestamp. -/
structure EvmCall where
  sender : Nat
  timestamp : Nat
deriving DecidableEq, Repr

/-- Embedding of the EthEscrow constructor: requires msg.value > 0, a non-zero
recipient and a timeout strictly after block.timestamp, then stores the fields
with claimed = refunded = false. -/
def EthEscrow.construct (call : EvmCall) (value : Nat) (rcpt : Nat) (hl : List Nat)
    (tout : Nat) : Except EscrowErr EthEscrowState :=
  if value = 0 then .error .mustSendEth
  else if rcpt = 0 then .error .invalidRecipient
  else if tout ≤ call.timestamp then .error .timeoutNotInFuture
  else .ok { deployer := call.sender, recipient := rcpt, hashlock := hl,
             timeout := tout, amount := value, claimed := false, refunded := false }

/-- Embedding of EthEscrow.claim (modifiers onlyRecipient, notClaimed,
notRefunded, then the body's sha256 hashlock check; `abi.encodePacked` of the
bytes32 secret is the secret's 32 bytes).  On success it sets claimed, emits
SecretRevealed and Claimed, and transfers `amount` to the recipient. -/
def EthEscrow.claim (call : EvmCall) (s : EthEscrowState) (secret : List Nat) :
    Except EscrowErr (EthEscrowState × List EscrowEvent × Nat × Nat) :=
  if call.sender ≠ s.recipient then .error .onlyRecipient
  else if s.claimed then .error .alreadyClaimed
  else if s.refunded then .error .alreadyRefunded
  else if sha256 secret ≠ s.hashlock then .error .invalidSecret
  else .ok ({ s with claimed := true },
            [.secretRevealed secret, .claimedEvent s.recipient s.amount],
            s.recipient, s.amount)

/-- Embedding of EthEscrow.refund (modifiers onlyDeployer, afterTimeout,
notClaimed, notRefunded, in that order).  On success it sets refunded, emits
Refunded, and transfers `amount` back to the deployer. -/
def EthEscrow.refund (call : EvmCall) (s : EthEscrowState) :
    Except EscrowErr (EthEscrowState × List EscrowEvent × Nat × Nat) :=
  if call.sender ≠ s.deployer then .error .onlyDeployer
  else if call.timestamp < s.timeout then .error .timeoutNotReached
  else if s.claimed then .error .alreadyClaimed
  else if s.refunded then .error .alreadyRefunded
  else .ok ({ s with refunded := true },
            [.refundedEvent s.deployer s.amount],
            s.deployer, s.amount)

/-- One successful external call on a deployed escrow. -/
inductive EthEscrow.Step : EthEscrowState → EthEscrowState → Prop
  | claim (call : EvmCall) (secret : List Nat) (s s' : EthEscrowState)
      (evs : List EscrowEvent) (payee value : Nat)
      (h : EthEscrow.claim call s secret = .ok (s', evs, payee, value)) : Step s s'
  | refund (call : EvmCall) (s s' : EthEscrowState)
      (evs : List EscrowEvent) (payee value : Nat)
      (h : EthEscrow.refund call s = .ok (s', evs, payee, value)) : Step s s'

/-- States reachable from a successful construction by successful calls
(reverted calls do not change the state, so they need no transition). -/
inductive EthEscrow.Reachable : EthEscrowState → Prop
  | construct (call : EvmCall) (value rcpt : Nat) (hl : List Nat) (tout : Nat)
      (s : EthEscrowState) (h : EthEscrow.construct call value rcpt hl tout = .ok s) :
      Reachable s
  | step (s s' : EthEscrowState) (hs : Reachable s) (h : EthEscrow.Step s s') : Reachable s'

/-! ## The escrow manager: src/eth/escrow.ts -/

/-- Embedding of EthEscrowManager.generateHashlock (src/eth/escrow.ts, lines
157-159): `ethers.keccak256(ethers.toUtf8Bytes(secret))`.  The secret string
is modelled by its UTF-8 byte list. -/
def EthEscrowManager.generateHashlock (secretUtf8 : List Nat) : List Nat :=
  keccak256 secretUtf8

/-- Embedding of the secret conversion in EthEscrowManager.claim
(src/eth/escrow.ts, line 82): `ethers.zeroPadValue(ethers.toUtf8Bytes(secret),
32)` left-pads the UTF-8 bytes of the secret string with zero bytes to a
32-byte value (defined for secrets of at most 32 bytes; longer ones throw in
the library). -/
def EthEscrowManager.secretToBytes32 (secretUtf8 : List Nat) : List Nat :=
  List.replicate (32 - secretUtf8.length) 0 ++ secretUtf8

/-! ## UTXO-chain HTLC builder: src/btc/htlc.ts

Transactions are modelled by the fields the builders set and the extractor
reads: locktime, inputs (outpoint, sequence, witness stack) and outputs
(address, value).  Witness stack items are byte lists; the signature produced
by the signing key is taken as a parameter, since signing happens in the
wallet library.  Monetary values are integers, matching the JavaScript number
arithmetic of the source (which can go negative before any check). -/

/-- Bitcoin script opcode constants used by createHTLCScript. -/
def OP_IF : Nat := 0x63

def OP_ELSE : Nat := 0x67

def OP_ENDIF : Nat := 0x68

def OP_SHA256 : Nat := 0xa8

def OP_EQUALVERIFY : Nat := 0x88

def OP_CHECKSIG : Nat := 0xac

def OP_CHECKLOCKTIMEVERIFY : Nat := 0xb1

def OP_DROP : Nat := 0x75

/-- One element of the chunk list handed to bitcoin.script.compile: an opcode,
a data push, or a script-number push. -/
inductive ScriptChunk
  | op (code : Nat)
  | data (bytes : List Nat)
  | num (n : Nat)
deriving DecidableEq, Repr

/-- Embedding of the chunk list createHTLCScript compiles (src/btc/htlc.ts,
lines 37-51): an OP_IF branch checking OP_SHA256 of the top item against the
hashlock plus the recipient key's signature, and an OP_ELSE branch with an
OP_CHECKLOCKTIMEVERIFY timelock plus the refund key's signature. -/
def createHTLCScriptChunks (hashlock recipientPubkey refundPubkey : List Nat)
    (locktime : Nat) : List ScriptChunk :=
  [.op OP_IF,
     .op OP_SHA256, .data hashlock, .op OP_EQUALVERIFY, .data recipientPubkey, .op OP_CHECKSIG,
   .op OP_ELSE,
     .num locktime, .op OP_CHECKLOCKTIMEVERIFY, .op OP_DROP, .data refundPubkey, .op OP_CHECKSIG,
   .op OP_ENDIF]

/-- Chain-side semantics of the immediate branch's hash check (OP_SHA256 then
OP_EQUALVERIFY against the script's hashlock push): the secret supplied in the
witness must SHA-256-hash to the hashlock. -/
def htlcScriptHashCheck (hashlock secret : List Nat) : Bool :=
  sha256 secret == hashlock

/-- The compiled script artifact as used downstream: the compiled redeem
script bytes, derived P2WSH address and scriptPubKey (the byte-level
serialization is done by bitcoinjs-lib and is opaque here). -/
structure HTLCScript where
  redeemScript : List Nat
  address : String
  scriptPubKey : List Nat
deriving DecidableEq, Repr

/-- A wallet UTXO as consumed by buildFundingTx. -/
structure FundingUtxo where
  txid : String
  vout : Nat
  value : Int
  scriptPubKey : List Nat
deriving DecidableEq, Repr

/-- The HTLC lock UTXO as consumed by buildRedeemTx and buildRefundTx. -/
structure LockUtxo where
  txid : String
  vout : Nat
  value : Int
deriving DecidableEq, Repr

/-- A transaction input: outpoint, sequence and witness stack. -/
structure TxIn where
  txid : String
  index : Nat
  sequence : Nat
  witness : List (List Nat)
deriving DecidableEq, Repr

/-- A transaction output: destination address and value. -/
structure TxOut where
  address : String
  value : Int
deriving DecidableEq, Repr

/-- A transaction as shaped by the three builders. -/
structure Transaction where
  locktime : Nat
  ins : List TxIn
  outs : List TxOut
deriving DecidableEq, Repr

/-- The only failure a funding build can surface locally: the Psbt
extractTransaction fee check throws when the outputs spend more than the
inputs. -/
inductive BuildErr
  | outputsExceedInputs
deriving DecidableEq, Repr

/-- Embedding of buildFundingTx (src/btc/htlc.ts, lines 74-128): sums the
input values, emits one output of `amount` to the HTLC address, computes
change = totalInput - amount - 1000, and adds a change output only when
change > 546 (the dust limit).  The function body itself never checks
sufficiency; the only guard is bitcoinjs-lib's Psbt.extractTransaction, which
throws when the outputs sum to more than the inputs. -/
def buildFundingTx (utxos : List FundingUtxo) (htlcAddress : String) (amount : Int)
    (changeAddress : String) : Except BuildErr Transaction :=
  let totalInput : Int := (utxos.map FundingUtxo.value).sum
  let fee : Int := 1000
  let change := totalInput - amount - fee
  let outs : List TxOut :=
    if change > 546 then
      [{ address := htlcAddress, value := amount }, { address := changeAddress, value := change }]
    else
      [{ address := htlcAddress, value := amount }]
  let ins : List TxIn := utxos.map fun u =>
    { txid := u.txid, index := u.vout, sequence := 0xffffffff, witness := [] }
  if totalInput < (outs.map TxOut.value).sum then .error .outputsExceedInputs
  else .ok { locktime := 0, ins := ins, outs := outs }

/-- Embedding of buildRedeemTx (src/btc/htlc.ts, lines 133-190): spends the
lock UTXO with witness stack [signature, secret, 0x01 selector, redeemScript]
(the immediate branch) and pays value - 1000 to the recipient. -/
def buildRedeemTx (htlcUtxo : LockUtxo) (script : HTLCScript) (recipientAddress : String)
    (secret : List Nat) (signature : List Nat) : Transaction :=
  { locktime := 0,
    ins := [{ txid := htlcUtxo.txid, index := htlcUtxo.vout, sequence := 0xffffffff,
              witness := [signature, secret, [0x01], script.redeemScript] }],
    outs := [{ address := recipientAddress, value := htlcUtxo.value - 1000 }] }

/-- Embedding of buildRefundTx (src/btc/htlc.ts, lines 195-246): sets the
transaction locktime, spends the lock UTXO with sequence 0xfffffffe and the
three-item witness stack [signature, 0x00 selector, redeemScript] (the delayed
branch), and pays value - 1000 to the refund address. -/
def buildRefundTx (htlcUtxo : LockUtxo) (script : HTLCScript) (refundAddress : String)
    (signature : List Nat) (locktime : Nat) : Transaction :=
  { locktime := locktime,
    ins := [{ txid := htlcUtxo.txid, index := htlcUtxo.vout, sequence := 0xfffffffe,
              witness := [signature, [0x00], script.redeemScript] }],
    outs := [{ address := refundAddress, value := htlcUtxo.value - 1000 }] }

/-- Embedding of extractSecretFromTx (src/btc/htlc.ts, lines 251-262): scan
the inputs for one whose witness has at least 4 items and whose second item is
32 bytes long, and return that item. -/
def extractSecretFromTx (tx : Transaction) : Option (List Nat) :=
  tx.ins.findSome? fun inp =>
    if 4 ≤ inp.witness.length then
      match inp.witness.get? 1 with
      | some secret => if secret.length = 32 then some secret else none
      | none => none
    else none

/-! ## Swap coordinator: the API routes of src/api/server.ts

Each route is embedded as a pure function from the swap row it reads (looked
up by id; the not-found branch is handled where the route checks it) and its
request parameters to either an error response or the updated row.  The
database UPDATE is the only mutation, so the returned row is the route's
entire effect on the swap.  `now` stands for both Date.now()/1000 and the
SQLite strftime clock.  Secrets and hashlocks are hex strings in the source
and are modelled by their decoded byte lists. -/

/-- The five statuses the swaps table CHECK constraint allows. -/
inductive SwapStatus
  | pending
  | funded
  | completed
  | expired
  | refunded
deriving DecidableEq, BEq, Repr

/-- A row of the swaps table (src/db/setup.ts), with column names kept. -/
structure Swap where
  id : Nat
  direction : String
  hashlock : List Nat
  secret : Option (List Nat)
  btc_amount : Int
  eth_amount : String
  btc_pubkey : Option String
  eth_address : String
  expiration : Nat
  btc_funded : Bool
  eth_funded : Bool
  eth_escrow_address : Option String
  btc_redeem_script : Option String
  btc_txid : Option String
  secret_revealed : Bool
  secret_revealed_at : Option Nat
  status : SwapStatus
  created_at : Nat
  updated_at : Nat
deriving DecidableEq, Repr

/-- Error responses of the embedded routes. -/
inductive ApiErr
  | missingFields
  | notFound
  | invalidSecret
  | escrowNotDeployed
  | timeoutNotReached
  | internalError
deriving DecidableEq, Repr

/-- Embedding of the server's own generateHashlock (src/api/server.ts, lines
32-34): a SHA-256 digest of the hex-decoded secret. -/
def serverGenerateHashlock (secret : List Nat) : List Nat := sha256 secret

/-- Embedding of POST /swap/:id/fund-btc (src/api/server.ts, lines 101-128):
requires redeemScript and btc_txid in the body, then unconditionally updates
the row to btc_funded = TRUE, stores the two artifacts and sets status to
funded. -/
def fundBtc (swap : Swap) (redeemScript btcTxid : Option String) (now : Nat) :
    Except ApiErr Swap :=
  match redeemScript, btcTxid with
  | some rs, some txid =>
      .ok { swap with btc_funded := true, btc_redeem_script := some rs,
                      btc_txid := some txid, status := .funded, updated_at := now }
  | _, _ => .error .missingFields

/-- Embedding of POST /swap/:id/fund-eth (src/api/server.ts, lines 133-170)
after the external escrow deployment succeeded and returned `escrowAddress`:
the row is updated to eth_funded = TRUE with the escrow address and status
funded.  (A failed deployment is caught and leaves the row unchanged.) -/
def fundEth (swap : Swap) (escrowAddress : String) (now : Nat) : Swap :=
  { swap with eth_funded := true, eth_escrow_address := some escrowAddress,
              status := .funded, updated_at := now }

/-- Embedding of POST /swap/:id/submit-secret (src/api/server.ts, lines
175-215): requires a secret in the body, recomputes the hashlock and compares
it with the stored one; on mismatch it answers Invalid secret and performs no
UPDATE; on match it sets secret_revealed = TRUE, records the reveal time and
sets status completed. -/
def submitSecret (swap : Swap) (secret : Option (List Nat)) (now : Nat) :
    Except ApiErr Swap :=
  match secret with
  | none => .error .missingFields
  | some s =>
      if serverGenerateHashlock s ≠ swap.hashlock then .error .invalidSecret
      else .ok { swap with secret_revealed := true, secret_revealed_at := some now,
                           status := .completed, updated_at := now }

/-- Embedding of POST /swap/:id/refund-eth (src/api/server.ts, lines 325-366):
requires a deployed escrow, rejects while now < expiration, then calls the
on-chain refund (from the server wallet, which is the escrow's deployer, at
the same clock); a chain revert is caught and leaves the row unchanged, and a
confirmed refund sets status refunded.  The row's current status is never
consulted. -/
def refundEth (swap : Swap) (now : Nat) (escrow : EthEscrowState) :
    Except ApiErr (Swap × EthEscrowState × List EscrowEvent) :=
  match swap.eth_escrow_address with
  | none => .error .escrowNotDeployed
  | some _ =>
      if now < swap.expiration then .error .timeoutNotReached
      else
        match EthEscrow.refund { sender := escrow.deployer, timestamp := now } escrow with
        | .error _ => .error .internalError
        | .ok (es, evs, _, _) =>
            .ok ({ swap with status := .refunded, updated_at := now }, es, evs)

/-- The secret-hiding step shared by the two read routes: GET /swap/:id
deletes the secret column unless secret_revealed is set (src/api/server.ts,
lines 229-232), and GET /swaps drops it from each such row (lines 264-271). -/
def sanitizeSwap (swap : Swap) : Swap :=
  if swap.secret_revealed then swap else { swap with secret := none }

/-- Embedding of GET /swap/:id (src/api/server.ts, lines 220-239): 404 when
the row is missing, otherwise the row with the secret hidden unless
revealed. -/
def getSwapRoute (swap : Option Swap) : Except ApiErr Swap :=
  match swap with
  | none => .error .notFound
  | some s => .ok (sanitizeSwap s)

/-- Embedding of GET /swaps (src/api/server.ts, lines 244-278): filter by the
optional status and direction query parameters, then hide the secret of every
row whose secret_revealed is false.  (The ORDER BY created_at DESC only
permutes the rows and is not modelled.) -/
def listSwapsRoute (swaps : List Swap) (statusFilter : Option SwapStatus)
    (directionFilter : Option String) : List Swap :=
  ((swaps.filter fun s =>
      (match statusFilter with
       | none => true
       | some st => s.status == st) &&
      (match directionFilter with
       | none => true
       | some d => s.direction == d)).map sanitizeSwap)

/-! ## Theorems -/

/-- C6: for every 32-byte secret and every HTLC lock UTXO (and any signature
and redeem script bytes), extractSecretFromTx applied to the transaction
buildRedeemTx builds with that secret returns exactly that secret: the
witness stack has four items and the secret sits at index 1. -/
theorem extractSecret_buildRedeemTx_roundtrip (htlcUtxo : LockUtxo) (script : HTLCScript)
    (recipientAddress : String) (secret signature : List Nat)
    (hlen : secret.length = 32) :
    extractSecretFromTx (buildRedeemTx htlcUtxo script recipientAddress secret signature) =
      some secret := by
  simp [extractSecretFromTx, buildRedeemTx, List.findSome?, hlen]

/-- Witness for C6 at a concrete lock UTXO and 32-byte secret. -/
theorem extractSecret_buildRedeemTx_roundtrip_witness :
    extractSecretFromTx (buildRedeemTx { txid := "fund", vout := 0, value := 5000 }
        { redeemScript := [1, 2, 3], address := "lockaddr", scriptPubKey := [4] }
        "rcptaddr" (List.replicate 32 7) [9]) = some (List.replicate 32 7) :=
  extractSecret_buildRedeemTx_roundtrip _ _ _ _ _ (by decide)

/-- C9: extractSecretFromTx applied to any transaction built by buildRefundTx
returns none: the refund witness carries three stack items, below the
four-item minimum the extractor requires. -/
theorem extractSecret_buildRefundTx_none (htlcUtxo : LockUtxo) (script : HTLCScript)
    (refundAddress : String) (signature : List Nat) (locktime : Nat) :
    extractSecretFromTx (buildRefundTx htlcUtxo script refundAddress signature locktime) =
      none := by
  simp [extractSecretFromTx, buildRefundTx, List.findSome?]

/-- C10: neither read route exposes the secret of a swap whose
secret_revealed flag is false: a row returned by GET /swap/:id, and every row
returned by GET /swaps under any filters, has secret = none whenever its
secret_revealed is false. -/
theorem read_routes_hide_unrevealed_secret :
    (∀ (row : Option Swap) (s : Swap), getSwapRoute row = .ok s →
        s.secret_revealed = false → s.secret = none)
    ∧ (∀ (swaps : List Swap) (stF : Option SwapStatus) (dirF : Option String) (s : Swap),
        s ∈ listSwapsRoute swaps stF dirF → s.secret_revealed = false → s.secret = none) := by
  constructor
  · intro row s hok hrev
    match row with
    | none => cases hok
    | some r =>
      simp only [getSwapRoute, Except.ok.injEq] at hok
      subst hok
      unfold sanitizeSwap at hrev ⊢
      by_cases hb : r.secret_revealed
      · simp [hb] at hrev
      · simp [hb]
  · intro swaps stF dirF s hmem hrev
    unfold listSwapsRoute at hmem
    obtain ⟨r, _, hr⟩ := List.mem_map.mp hmem
    subst hr
    unfold sanitizeSwap at hrev ⊢
    by_cases hb : r.secret_revealed
    · simp [hb] at hrev
    · simp [hb]

/-- A concrete pending row holding a still-unrevealed secret. -/
def c10row : Swap :=
  { id := 1, direction := "btc-to-eth", hashlock := [1, 2], secret := some [3, 4],
    btc_amount := 100, eth_amount := "1.0", btc_pubkey := none, eth_address := "0xe",
    expiration := 900, btc_funded := false, eth_funded := false,
    eth_escrow_address := none, btc_redeem_script := none, btc_txid := none,
    secret_revealed := false, secret_revealed_at := none, status := .pending,
    created_at := 10, updated_at := 10 }

/-- Witness for C10: a concrete unrevealed row queried through both routes. -/
theorem read_routes_hide_unrevealed_secret_witness :
    ((sanitizeSwap c10row).secret = none ∧ (sanitizeSwap c10row).secret = none) :=
  ⟨read_routes_hide_unrevealed_secret.1 (some c10row) (sanitizeSwap c10row) rfl
     (by decide),
   read_routes_hide_unrevealed_secret.2 [c10row] none none (sanitizeSwap c10row)
     (by decide) (by decide)⟩

/-- C5: EthEscrow.claim succeeds exactly when the caller is the recipient,
both settlement flags are false and the SHA-256 digest of the secret equals
the stored hashlock; the result is independent of the chain time (so a claim
past the timeout still succeeds), and on success it sets claimed, emits the
secret (SecretRevealed then Claimed) and transfers the amount to the
recipient.  A failing call returns an error and thus leaves the state
unchanged. -/
theorem ethEscrow_claim_spec (call : EvmCall) (s : EthEscrowState) (secret : List Nat) :
    ((EthEscrow.claim call s secret).isOk = true ↔
      (call.sender = s.recipient ∧ s.claimed = false ∧ s.refunded = false ∧
        sha256 secret = s.hashlock))
    ∧ (∀ t : Nat, EthEscrow.claim { sender := call.sender, timestamp := t } s secret =
        EthEscrow.claim call s secret)
    ∧ (call.sender = s.recipient → s.claimed = false → s.refunded = false →
        sha256 secret = s.hashlock →
        EthEscrow.claim call s secret =
          .ok ({ s with claimed := true },
               [.secretRevealed secret, .claimedEvent s.recipient s.amount],
               s.recipient, s.amount)) := by
  refine ⟨?_, fun t => rfl, ?_⟩
  · unfold EthEscrow.claim
    split_ifs with h1 h2 h3 h4
    · simp only [Except.isOk, Except.toBool, Bool.false_eq_true, false_iff]
      intro hc
      exact h1 hc.1
    · simp only [Except.isOk, Except.toBool, Bool.false_eq_true, false_iff]
      intro hc
      simp [hc.2.1] at h2
    · simp only [Except.isOk, Except.toBool, Bool.false_eq_true, false_iff]
      intro hc
      simp [hc.2.2.1] at h3
    · simp only [Except.isOk, Except.toBool, Bool.false_eq_true, false_iff]
      intro hc
      exact h4 hc.2.2.2
    · simp only [Except.isOk, Except.toBool, true_iff]
      exact ⟨not_not.mp h1, by simpa using h2, by simpa using h3, not_not.mp h4⟩
  · intro h1 h2 h3 h4
    simp [EthEscrow.claim, h1, h2, h3, h4]

/-- A 32-byte secret used by several concrete escrow scenarios below. -/
def demoSecret : List Nat := List.replicate 32 3

/-- An escrow as the constructor leaves it, locked under the SHA-256 hashlock
of demoSecret: deployer 1, recipient 2, timeout 100, amount 5. -/
def demoOpenEscrow : EthEscrowState :=
  { deployer := 1, recipient := 2, hashlock := sha256 demoSecret, timeout := 100,
    amount := 5, claimed := false, refunded := false }

/-- Witness for C5: the recipient claims demoOpenEscrow at chain time 500,
past the timeout 100, and the claim succeeds. -/
theorem ethEscrow_claim_spec_witness :
    EthEscrow.claim { sender := 2, timestamp := 500 } demoOpenEscrow demoSecret =
      .ok ({ demoOpenEscrow with claimed := true },
           [.secretRevealed demoSecret, .claimedEvent 2 5], 2, 5) :=
  (ethEscrow_claim_spec { sender := 2, timestamp := 500 } demoOpenEscrow demoSecret).2.2
    rfl rfl rfl rfl

/-- C8: POST /swap/:id/submit-secret with a secret whose recomputed hashlock
differs from the stored one answers Invalid secret and performs no database
UPDATE (an error response leaves the row untouched); only a matching secret
sets secret_revealed and status completed (together with the reveal and
update timestamps, the only other columns the UPDATE touches). -/
theorem submitSecret_spec (swap : Swap) (s : List Nat) (now : Nat) :
    (serverGenerateHashlock s ≠ swap.hashlock →
       submitSecret swap (some s) now = .error .invalidSecret)
    ∧ (serverGenerateHashlock s = swap.hashlock →
       submitSecret swap (some s) now =
         .ok { swap with secret_revealed := true, secret_revealed_at := some now,
                         status := .completed, updated_at := now }) := by
  constructor
  · intro hne
    simp [submitSecret, hne]
  · intro heq
    simp [submitSecret, heq]

/-- A concrete funded swap row locked under the server hashlock of
demoSecret. -/
def c8row : Swap :=
  { id := 2, direction := "btc-to-eth", hashlock := serverGenerateHashlock demoSecret,
    secret := some demoSecret, btc_amount := 100, eth_amount := "1.0",
    btc_pubkey := none, eth_address := "0xe", expiration := 900, btc_funded := true,
    eth_funded := true, eth_escrow_address := some "0xesc",
    btc_redeem_script := some "rs", btc_txid := some "txid",
    secret_revealed := false, secret_revealed_at := none, status := .funded,
    created_at := 10, updated_at := 20 }

set_option maxRecDepth 1000000 in
/-- Witness for C8: on c8row a wrong secret (all 4 bytes) is rejected and the
right secret completes the swap. -/
theorem submitSecret_spec_witness :
    submitSecret c8row (some (List.replicate 32 4)) 30 = .error .invalidSecret
    ∧ submitSecret c8row (some demoSecret) 30 =
        .ok { c8row with secret_revealed := true, secret_revealed_at := some 30,
                         status := .completed, updated_at := 30 } :=
  ⟨(submitSecret_spec c8row (List.replicate 32 4) 30).1 (by decide),
   (submitSecret_spec c8row demoSecret 30).2 rfl⟩

/-- A freshly created swap row: pending, neither chain funded. -/
def c2pendingRow : Swap :=
  { id := 3, direction := "btc-to-eth", hashlock := [7, 7], secret := some [9],
    btc_amount := 100, eth_amount := "1.0", btc_pubkey := none, eth_address := "0xe",
    expiration := 900, btc_funded := false, eth_funded := false,
    eth_escrow_address := none, btc_redeem_script := none, btc_txid := none,
    secret_revealed := false, secret_revealed_at := none, status := .pending,
    created_at := 10, updated_at := 10 }

/-- Counterexample to C2: marking only the Bitcoin leg of a pending swap
funded already sets status to funded, while the Ethereum leg is still
unfunded — the status does not stay pending until both funded flags hold. -/
theorem fund_single_leg_sets_funded_counterexample :
    (fundBtc c2pendingRow (some "rs") (some "txid") 20).map Swap.status =
      .ok SwapStatus.funded
    ∧ (fundBtc c2pendingRow (some "rs") (some "txid") 20).map Swap.eth_funded = .ok false
    ∧ c2pendingRow.status = SwapStatus.pending
    ∧ c2pendingRow.btc_funded = false ∧ c2pendingRow.eth_funded = false := by
  refine ⟨rfl, rfl, rfl, rfl, rfl⟩

/-- C2 as amended: each fund route sets its own chain's funded flag and never
touches the other chain's flag, but it sets the swap status to funded
unconditionally — already when only that one leg is funded. -/
theorem markChainFunded_amended (swap : Swap) (rs txid escrowAddr : String) (now : Nat)
    (s1 : Swap) (h1 : fundBtc swap (some rs) (some txid) now = .ok s1) :
    (s1.btc_funded = true ∧ s1.eth_funded = swap.eth_funded ∧ s1.status = .funded
      ∧ s1.hashlock = swap.hashlock ∧ s1.secret_revealed = swap.secret_revealed)
    ∧ ((fundEth swap escrowAddr now).eth_funded = true
      ∧ (fundEth swap escrowAddr now).btc_funded = swap.btc_funded
      ∧ (fundEth swap escrowAddr now).status = .funded) := by
  simp only [fundBtc, Except.ok.injEq] at h1
  subst h1
  exact ⟨⟨rfl, rfl, rfl, rfl, rfl⟩, rfl, rfl, rfl⟩

/-- Witness for the amended C2 at the concrete pending row. -/
theorem markChainFunded_amended_witness :
    (({ c2pendingRow with
          btc_funded := true, btc_redeem_script := some "rs",
          btc_txid := some "txid", status := .funded, updated_at := 20 } : Swap).btc_funded
        = true)
    ∧ (fundEth c2pendingRow "0xesc" 20).status = .funded :=
  ⟨(markChainFunded_amended c2pendingRow "rs" "txid" "0xesc" 20 _ rfl).1.1,
   (markChainFunded_amended c2pendingRow "rs" "txid" "0xesc" 20
      { c2pendingRow with
          btc_funded := true, btc_redeem_script := some "rs",
          btc_txid := some "txid", status := .funded, updated_at := 20 } rfl).2.2.2⟩

/-- Inversion of a successful escrow claim: it required the recipient as
caller, both flags clear and a matching SHA-256 digest, and it only set the
claimed flag. -/
theorem EthEscrow.claim_ok (call : EvmCall) (s : EthEscrowState) (secret : List Nat)
    (s' : EthEscrowState) (evs : List EscrowEvent) (payee value : Nat)
    (h : EthEscrow.claim call s secret = .ok (s', evs, payee, value)) :
    call.sender = s.recipient ∧ s.claimed = false ∧ s.refunded = false
    ∧ sha256 secret = s.hashlock ∧ s' = { s with claimed := true } := by
  unfold EthEscrow.claim at h
  split_ifs at h with h1 h2 h3 h4
  cases h
  exact ⟨not_not.mp h1, by simpa using h2, by simpa using h3, not_not.mp h4, rfl⟩

/-- Inversion of a successful escrow refund: it required the deployer as
caller, chain time at or past the timeout and both flags clear, and it only
set the refunded flag. -/
theorem EthEscrow.refund_ok (call : EvmCall) (s : EthEscrowState)
    (s' : EthEscrowState) (evs : List EscrowEvent) (payee value : Nat)
    (h : EthEscrow.refund call s = .ok (s', evs, payee, value)) :
    call.sender = s.deployer ∧ s.timeout ≤ call.timestamp ∧ s.claimed = false
    ∧ s.refunded = false ∧ s' = { s with refunded := true } := by
  unfold EthEscrow.refund at h
  split_ifs at h with h1 h2 h3 h4
  cases h
  exact ⟨not_not.mp h1, by omega, by simpa using h3, by simpa using h4, rfl⟩

/-- A swap row already marked completed (as POST /swap/:id/submit-secret
leaves it, without any on-chain claim), whose escrow expired at 100. -/
def c3completedRow : Swap :=
  { id := 4, direction := "btc-to-eth", hashlock := sha256 demoSecret,
    secret := some demoSecret, btc_amount := 100, eth_amount := "1.0",
    btc_pubkey := none, eth_address := "0xe", expiration := 100, btc_funded := true,
    eth_funded := true, eth_escrow_address := some "0xesc",
    btc_redeem_script := some "rs", btc_txid := some "txid",
    secret_revealed := true, secret_revealed_at := some 50, status := .completed,
    created_at := 10, updated_at := 50 }

/-- Counterexample to C3: on a swap whose status is already completed, with
its (still unsettled) escrow and the expiration passed, the refund route
succeeds and overwrites the status with refunded — the route never checks the
swap's status. -/
theorem refundEth_on_completed_counterexample :
    (refundEth c3completedRow 100 demoOpenEscrow).map (fun out => out.1.status) =
      .ok SwapStatus.refunded
    ∧ c3completedRow.status = SwapStatus.completed :=
  ⟨rfl, rfl⟩

/-- C3 as amended: the refund route succeeds only when an escrow address is
recorded, the swap's absolute expiration has passed (an earlier call is
rejected with Timeout not yet reached) and the on-chain refund goes through
(so the escrow was neither claimed nor refunded on chain); on success it sets
status refunded.  The swap's own status is not consulted, so a swap already
marked completed can still be set to refunded. -/
theorem refundEth_amended (swap : Swap) (now : Nat) (escrow : EthEscrowState) :
    (∀ out, refundEth swap now escrow = .ok out →
        swap.expiration ≤ now ∧ swap.eth_escrow_address ≠ none
        ∧ escrow.claimed = false ∧ escrow.refunded = false
        ∧ out.1.status = .refunded ∧ out.2.1.refunded = true)
    ∧ (now < swap.expiration → (refundEth swap now escrow).isOk = false) := by
  constructor
  · intro out hok
    match haddr : swap.eth_escrow_address,
        hre : EthEscrow.refund { sender := escrow.deployer, timestamp := now } escrow with
    | none, _ => simp [refundEth, haddr] at hok
    | some addr, .error e =>
      by_cases htime : now < swap.expiration
      · simp [refundEth, haddr, htime] at hok
      · simp [refundEth, haddr, htime, hre] at hok
    | some addr, .ok (es, evs, payee, value) =>
      by_cases htime : now < swap.expiration
      · simp [refundEth, haddr, htime] at hok
      · simp only [refundEth, haddr, htime, hre, if_false, if_neg htime,
          Except.ok.injEq] at hok
        obtain ⟨hcall, ht, hc, hrf, hes⟩ :=
          EthEscrow.refund_ok _ _ _ _ _ _ hre
        subst hok
        refine ⟨by omega, by simp [haddr], hc, hrf, rfl, ?_⟩
        simp [hes]
  · intro htime
    match haddr : swap.eth_escrow_address with
    | none => simp [refundEth, haddr, Except.isOk, Except.toBool]
    | some addr => simp [refundEth, haddr, htime, Except.isOk, Except.toBool]

/-- Witness for the amended C3: a concrete successful refund at the
expiration boundary, and a concrete early rejection. -/
theorem refundEth_amended_witness :
    (c3completedRow.expiration ≤ 100 ∧ c3completedRow.eth_escrow_address ≠ none
      ∧ demoOpenEscrow.claimed = false ∧ demoOpenEscrow.refunded = false
      ∧ ({ c3completedRow with status := .refunded, updated_at := 100 } : Swap).status =
          .refunded
      ∧ ({ demoOpenEscrow with refunded := true } : EthEscrowState).refunded = true)
    ∧ (refundEth c3completedRow 99 demoOpenEscrow).isOk = false :=
  ⟨(refundEth_amended c3completedRow 100 demoOpenEscrow).1
      ({ c3completedRow with status := .refunded, updated_at := 100 },
       { demoOpenEscrow with refunded := true }, [.refundedEvent 1 5]) rfl,
   (refundEth_amended c3completedRow 99 demoOpenEscrow).2 (by decide)⟩

/-- A successful claim under exactly the four guards of EthEscrow.claim. -/
theorem EthEscrow.claim_succeeds (call : EvmCall) (s : EthEscrowState) (secret : List Nat)
    (h1 : call.sender = s.recipient) (h2 : s.claimed = false) (h3 : s.refunded = false)
    (h4 : sha256 secret = s.hashlock) :
    EthEscrow.claim call s secret =
      .ok ({ s with claimed := true },
           [.secretRevealed secret, .claimedEvent s.recipient s.amount],
           s.recipient, s.amount) := by
  simp [EthEscrow.claim, h1, h2, h3, h4]

/-- Along any successful escrow call the claimed and refunded flags never
revert from true to false. -/
theorem EthEscrow.step_monotone (t t' : EthEscrowState) (h : EthEscrow.Step t t') :
    (t.claimed = true → t'.claimed = true) ∧ (t.refunded = true → t'.refunded = true) := by
  cases h with
  | claim call secret s s' evs payee value hc =>
    obtain ⟨_, hcl, hrf, _, hs⟩ := EthEscrow.claim_ok _ _ _ _ _ _ _ hc
    subst hs
    exact ⟨fun _ => rfl, fun hh => hh⟩
  | refund call s s' evs payee value hr =>
    obtain ⟨_, _, hcl, hrf, hs⟩ := EthEscrow.refund_ok _ _ _ _ _ _ hr
    subst hs
    exact ⟨fun hh => hh, fun _ => rfl⟩

/-- In every reachable escrow state the two settlement flags are mutually
exclusive. -/
theorem EthEscrow.reachable_exclusive (s : EthEscrowState) (h : EthEscrow.Reachable s) :
    ¬ (s.claimed = true ∧ s.refunded = true) := by
  induction h with
  | construct call value rcpt hl tout s hc =>
    unfold EthEscrow.construct at hc
    split_ifs at hc
    cases hc
    simp
  | step s s' hs hstep ih =>
    cases hstep with
    | claim call secret t t' evs payee value hc =>
      obtain ⟨_, hcl, hrf, _, hs'⟩ := EthEscrow.claim_ok _ _ _ _ _ _ _ hc
      subst hs'
      simp [hrf]
    | refund call t t' evs payee value hr =>
      obtain ⟨_, _, hcl, hrf, hs'⟩ := EthEscrow.refund_ok _ _ _ _ _ _ hr
      subst hs'
      simp [hcl]

/-- The demoOpenEscrow after its recipient claimed it with demoSecret. -/
def demoClaimedEscrow : EthEscrowState := { demoOpenEscrow with claimed := true }

/-- demoClaimedEscrow arises from a real construction followed by a real
claim. -/
theorem demoClaimedEscrow_reachable : EthEscrow.Reachable demoClaimedEscrow :=
  .step demoOpenEscrow demoClaimedEscrow
    (.construct { sender := 1, timestamp := 10 } 5 2 (sha256 demoSecret) 100
      demoOpenEscrow rfl)
    (.claim { sender := 2, timestamp := 50 } demoSecret demoOpenEscrow demoClaimedEscrow
      [.secretRevealed demoSecret, .claimedEvent 2 5] 2 5
      (EthEscrow.claim_succeeds { sender := 2, timestamp := 50 } demoOpenEscrow demoSecret
        rfl rfl rfl rfl))

/-- Counterexample to C4's error clause: on a reachable escrow whose claimed
flag is set, a refund attempted by the deployer before the timeout fails with
the Timeout not yet reached error, not with an already-settled error — the
afterTimeout modifier runs before the notClaimed/notRefunded modifiers. -/
theorem ethEscrow_settled_refund_timeout_error_counterexample :
    EthEscrow.Reachable demoClaimedEscrow
    ∧ demoClaimedEscrow.claimed = true
    ∧ EthEscrow.refund { sender := 1, timestamp := 60 } demoClaimedEscrow =
        .error .timeoutNotReached :=
  ⟨demoClaimedEscrow_reachable, rfl, rfl⟩

/-- C4 as amended: in every reachable escrow state the claimed and refunded
flags are never both true and each flag is monotonic along successful calls;
once either flag is set, every further claim or refund fails (so, the chain
rolling errors back, leaves the state unchanged), and the error is the
already-settled one whenever the earlier guards pass — for a claim when the
caller is the recipient, for a refund when the caller is the deployer and
the timeout has been reached (otherwise the authorization or timeout guard
reports its own error first, as those modifiers run earlier). -/
theorem ethEscrow_terminal_flags (s : EthEscrowState) (hs : EthEscrow.Reachable s) :
    ¬ (s.claimed = true ∧ s.refunded = true)
    ∧ (∀ t t' : EthEscrowState, EthEscrow.Step t t' →
        (t.claimed = true → t'.claimed = true) ∧ (t.refunded = true → t'.refunded = true))
    ∧ (∀ (call : EvmCall) (secret : List Nat), s.claimed = true ∨ s.refunded = true →
        (EthEscrow.claim call s secret).isOk = false
        ∧ (EthEscrow.refund call s).isOk = false
        ∧ (call.sender = s.recipient →
            EthEscrow.claim call s secret =
              .error (if s.claimed then .alreadyClaimed else .alreadyRefunded))
        ∧ (call.sender = s.deployer → s.timeout ≤ call.timestamp →
            EthEscrow.refund call s =
              .error (if s.claimed then .alreadyClaimed else .alreadyRefunded))) := by
  refine ⟨EthEscrow.reachable_exclusive s hs,
    fun t t' h => EthEscrow.step_monotone t t' h, ?_⟩
  intro call secret hsettled
  refine ⟨?_, ?_, ?_, ?_⟩
  · unfold EthEscrow.claim
    split_ifs with h1 h2 h3 h4
    · rfl
    · rfl
    · rfl
    · rfl
    · rcases hsettled with hc | hr
      · exact absurd hc h2
      · exact absurd hr h3
  · unfold EthEscrow.refund
    split_ifs with h1 h2 h3 h4
    · rfl
    · rfl
    · rfl
    · rfl
    · rcases hsettled with hc | hr
      · exact absurd hc h3
      · exact absurd hr h4
  · intro hrcpt
    rcases hsettled with hc | hr
    · simp [EthEscrow.claim, hrcpt, hc]
    · cases hcl : s.claimed
      · simp [EthEscrow.claim, hrcpt, hcl, hr]
      · simp [EthEscrow.claim, hrcpt, hcl]
  · intro hdep htime
    have htlt : ¬ call.timestamp < s.timeout := by omega
    rcases hsettled with hc | hr
    · simp [EthEscrow.refund, hdep, htlt, hc]
    · cases hcl : s.claimed
      · simp [EthEscrow.refund, hdep, htlt, hcl, hr]
      · simp [EthEscrow.refund, hdep, htlt, hcl]

/-- Witness for the amended C4 on the concrete claimed escrow: both further
calls fail, and with the guards passing they report the already-claimed
error. -/
theorem ethEscrow_terminal_flags_witness :
    (EthEscrow.claim { sender := 2, timestamp := 150 } demoClaimedEscrow demoSecret).isOk
        = false
    ∧ (EthEscrow.refund { sender := 1, timestamp := 150 } demoClaimedEscrow).isOk = false
    ∧ EthEscrow.claim { sender := 2, timestamp := 150 } demoClaimedEscrow demoSecret =
        .error (if demoClaimedEscrow.claimed then .alreadyClaimed else .alreadyRefunded)
    ∧ EthEscrow.refund { sender := 1, timestamp := 150 } demoClaimedEscrow =
        .error (if demoClaimedEscrow.claimed then .alreadyClaimed else .alreadyRefunded) :=
  ⟨((ethEscrow_terminal_flags demoClaimedEscrow demoClaimedEscrow_reachable).2.2
      { sender := 2, timestamp := 150 } demoSecret (Or.inl rfl)).1,
   ((ethEscrow_terminal_flags demoClaimedEscrow demoClaimedEscrow_reachable).2.2
      { sender := 1, timestamp := 150 } demoSecret (Or.inl rfl)).2.1,
   ((ethEscrow_terminal_flags demoClaimedEscrow demoClaimedEscrow_reachable).2.2
      { sender := 2, timestamp := 150 } demoSecret (Or.inl rfl)).2.2.1 rfl,
   ((ethEscrow_terminal_flags demoClaimedEscrow demoClaimedEscrow_reachable).2.2
      { sender := 1, timestamp := 150 } demoSecret (Or.inl rfl)).2.2.2 rfl (by decide)⟩

/-- A wallet UTXO worth 10500, enough for a 10000 output but not for
10000 + the 1000 fee. -/
def c7utxo : FundingUtxo := { txid := "u1", vout := 0, value := 10500, scriptPubKey := [] }

/-- Counterexample to C7: with a 10500 total input, an amount of 10000 and the
fixed 1000 fee, the inputs are insufficient to cover amount + fee, yet
buildFundingTx succeeds — the 500 shortfall is silently absorbed into a
reduced fee (the single output is the 10000 to the lock address). -/
theorem buildFundingTx_insufficient_counterexample :
    (buildFundingTx [c7utxo] "lock" 10000 "chg").isOk = true
    ∧ (buildFundingTx [c7utxo] "lock" 10000 "chg").map Transaction.outs =
        .ok [{ address := "lock", value := 10000 }]
    ∧ ([c7utxo].map FundingUtxo.value).sum < 10000 + 1000 := by
  exact ⟨rfl, rfl, by norm_num [c7utxo]⟩

/-- C7 as amended: buildFundingTx emits one output of exactly `amount` to the
lock address, adds a change output of totalInput − amount − 1000 exactly when
that remainder exceeds the 546-unit dust threshold (otherwise the remainder
is absorbed into the fee), and fails only when the outputs would exceed
totalInput — that is, only when totalInput < amount (the library's
outputs-spending-more-than-inputs check); a shortfall smaller than the
intended 1000 fee is absorbed rather than rejected. -/
theorem buildFundingTx_amended (utxos : List FundingUtxo) (htlcAddress : String)
    (amount : Int) (changeAddress : String) :
    ((buildFundingTx utxos htlcAddress amount changeAddress).isOk = false ↔
        (utxos.map FundingUtxo.value).sum < amount)
    ∧ (∀ tx, buildFundingTx utxos htlcAddress amount changeAddress = .ok tx →
        tx.outs =
          (if 546 < (utxos.map FundingUtxo.value).sum - amount - 1000 then
            [{ address := htlcAddress, value := amount },
             { address := changeAddress,
               value := (utxos.map FundingUtxo.value).sum - amount - 1000 }]
          else [{ address := htlcAddress, value := amount }])) := by
  constructor
  · simp only [buildFundingTx]
    by_cases hch : (546 : Int) < (utxos.map FundingUtxo.value).sum - amount - 1000
    · rw [if_pos hch]
      split_ifs with hg
      · exfalso
        simp only [List.map_cons, List.map_nil, List.sum_cons, List.sum_nil] at hg
        omega
      · simp only [List.map_cons, List.map_nil, List.sum_cons, List.sum_nil] at hg
        simp [Except.isOk, Except.toBool]
        omega
    · rw [if_neg hch]
      split_ifs with hg
      · simp only [List.map_cons, List.map_nil, List.sum_cons, List.sum_nil] at hg
        simp [Except.isOk, Except.toBool]
        omega
      · simp only [List.map_cons, List.map_nil, List.sum_cons, List.sum_nil] at hg
        simp [Except.isOk, Except.toBool]
        omega
  · intro tx htx
    simp only [buildFundingTx] at htx
    by_cases hch : (546 : Int) < (utxos.map FundingUtxo.value).sum - amount - 1000
    · rw [if_pos hch] at htx
      split_ifs at htx
      cases htx
      simp [hch]
    · rw [if_neg hch] at htx
      split_ifs at htx
      cases htx
      simp [hch]

/-- A wallet UTXO worth 20000, enough for a 10000 output, the 1000 fee and a
9000 change output. -/
def c7utxo2 : FundingUtxo := { txid := "u2", vout := 1, value := 20000, scriptPubKey := [2] }

/-- The transaction buildFundingTx builds from c7utxo2 for amount 10000. -/
def c7okTx : Transaction :=
  { locktime := 0,
    ins := [{ txid := "u2", index := 1, sequence := 0xffffffff, witness := [] }],
    outs := [{ address := "lock", value := 10000 }, { address := "chg", value := 9000 }] }

/-- Witness for the amended C7: the concrete 20000-input build yields the
10000 lock output plus the 9000 change output. -/
theorem buildFundingTx_amended_witness :
    c7okTx.outs = [{ address := "lock", value := 10000 }, { address := "chg", value := 9000 }] :=
  ((buildFundingTx_amended [c7utxo2] "lock" 10000 "chg").2 c7okTx rfl).trans (by decide)

/-- The UTF-8 bytes of the secret string "abc". -/
def c1secret : List Nat := [0x61, 0x62, 0x63]

/-- The escrow that deploying EthEscrow with the manager-generated hashlock of
"abc" creates (deployer 1, recipient 2, timeout 100, amount 5). -/
def c1escrow : EthEscrowState :=
  { deployer := 1, recipient := 2,
    hashlock := EthEscrowManager.generateHashlock c1secret,
    timeout := 100, amount := 5, claimed := false, refunded := false }

set_option maxRecDepth 1000000 in
/-- C1 fails on the code (the spec's own open question in its design notes
flags this): EthEscrowManager.generateHashlock computes a keccak256 digest,
while EthEscrow.claim recomputes the hashlock with the EVM sha256 precompile
and the UTXO script checks the preimage with OP_SHA256.  Concretely, an
escrow opened under generateHashlock of the secret "abc" rejects the claim
that presents that very secret (as the manager's own claim wrapper encodes
it) with Invalid secret, and the UTXO script's SHA-256 hash check fails on
the same hashlock/secret pair, because the keccak256 and SHA-256 digests
differ. -/
theorem hashlock_wiring_mismatch :
    EthEscrow.construct { sender := 1, timestamp := 10 } 5 2
        (EthEscrowManager.generateHashlock c1secret) 100 = .ok c1escrow
    ∧ EthEscrow.claim { sender := 2, timestamp := 50 } c1escrow
        (EthEscrowManager.secretToBytes32 c1secret) = .error .invalidSecret
    ∧ htlcScriptHashCheck (EthEscrowManager.generateHashlock c1secret)
        (EthEscrowManager.secretToBytes32 c1secret) = false
    ∧ sha256 c1secret ≠ EthEscrowManager.generateHashlock c1secret := by
  refine ⟨rfl, ?_, by decide, by decide⟩
  have hne : sha256 (EthEscrowManager.secretToBytes32 c1secret) ≠
      EthEscrowManager.generateHashlock c1secret := by decide
  simp only [EthEscrow.claim, c1escrow]
  rw [if_neg (by decide), if_neg (by decide), if_neg (by decide), if_pos hne]
